import Mathlib

/-!
Verification of the manparse command-line parsing library (src/manparse.py)
against its natural-language specification.

The Python source is shallowly embedded below.  Python values that can flow
through the parser (tokens, coerced values, defaults, consts) are modelled by
`PyVal`; the namespace (`Namespace` class, mutated via `setattr`) is modelled
as an association list from dest strings to tagged stored values.  The module
constant `SUPPRESS = something` (a sentinel string compared with `is`) is modelled by
the dedicated constructor `PyVal.vSuppress`.

Modelling notes, applying throughout:
* Python `int(token)` (used by `_check_type(int, ...)` and type coercion) is
  modelled by `pyParseInt`, restricted to an optional sign followed by ASCII
  digits.  Python also strips surrounding whitespace and accepts other digit
  forms; no claim exercises those.
* Error messages are reproduced in spirit; the Python `%` formatting of
  quoted values is simplified (no quote characters).  The only message any
  claim depends on textually is the needs-N-values message, which is exact.
* Python dict iteration order (`iteritems`) is unspecified; the two
  constraint graphs are modelled as association lists in insertion order.
  `list(set(x))` deduplication is modelled by `List.dedup`; no claim depends
  on the (unspecified) ordering, only on membership and multiplicity.
-/

/-- PyVal models the scalar Python values the parser manipulates. -/
inductive PyVal where
  | vStr (s : String)
  | vInt (n : Int)
  | vBool (b : Bool)
  | vNone
  | vSuppress
deriving DecidableEq, Repr

/-- StoredVal is the tagged value stored under a dest in the namespace:
either a scalar or an ordered list (mirroring the spec data model). -/
inductive StoredVal where
  | scalar (v : PyVal)
  | list (vs : List PyVal)
deriving DecidableEq, Repr

/-- PType models the value types the verified claims exercise.  The source
also allows float, bool and the FileType/DirType factories; they are not
touched by any claim settled here. -/
inductive PType where
  | tStr
  | tInt
deriving DecidableEq, Repr

/-- PAction models the closed action set of `_Parameter.__init__`. -/
inductive PAction where
  | store
  | store_true
  | store_false
  | help
  | version
deriving DecidableEq, Repr

/-- Nargs models the arity field: a fixed count, one-or-more `+`,
zero-or-more `*`, or optional-one `?`. -/
inductive Nargs where
  | fixed (n : Nat)
  | plus
  | star
  | opt
deriving DecidableEq, Repr

/-- PError models `ParameterError`: an optional parameter name plus a
message (the constructor stores `parameter.name` when a parameter is given). -/
structure PError where
  param : Option String
  msg : String
deriving DecidableEq, Repr

/-- Parameter models the `_Parameter` object after `__init__` has finished
(help-rendering fields `section` and `help` are omitted: they only feed the
out-of-scope help renderer). -/
structure Parameter where
  name : String
  long_name : Option String
  dest : String
  ptype : PType
  action : PAction
  nargs : Nargs
  default_nargs : Bool
  default : PyVal
  const : PyVal
  required : Bool
  choices : Option (List PyVal)
deriving DecidableEq, Repr

/-- Namespace models the `Namespace` attribute holder as an association list
from dest to stored value; `setattr` overwrites, membership is `in`. -/
abbrev Namespace := List (String × StoredVal)

/-- nsContains models `dest in namespace` (attribute membership in the
underlying attribute dict). -/
def nsContains : Namespace → String → Bool
  | [], _ => false
  | e :: rest, k => e.1 = k || nsContains rest k

/-- nsGet looks up the value stored under a dest. -/
def nsGet : Namespace → String → Option StoredVal
  | [], _ => none
  | e :: rest, k => if e.1 = k then some e.2 else nsGet rest k

/-- nsSet models `setattr(namespace, k, v)`: the attribute dict overwrites
an existing entry, otherwise adds one (keys stay unique, as in a dict). -/
def nsSet : Namespace → String → StoredVal → Namespace
  | [], k, v => [(k, v)]
  | e :: rest, k, v => if e.1 = k then (k, v) :: rest else e :: nsSet rest k v

/-- nsCountKey counts the entries stored under a dest (used to state that a
default is written exactly once). -/
def nsCountKey : Namespace → String → Nat
  | [], _ => 0
  | e :: rest, k => (if e.1 = k then 1 else 0) + nsCountKey rest k

/-- isAsciiLetter models the regex character class with the A-Z and a-z ranges. -/
def isAsciiLetter (c : Char) : Bool :=
  ('A' ≤ c && c ≤ 'Z') || ('a' ≤ c && c ≤ 'z')

/-- isLetterOrUnderscore models the regex character class with the letter ranges and underscore. -/
def isLetterOrUnderscore (c : Char) : Bool :=
  isAsciiLetter c || c = '_'

/-- digitsToNatAux folds ASCII digits into a natural number, failing on any
non-digit. -/
def digitsToNatAux : Nat → List Char → Option Nat
  | acc, [] => some acc
  | acc, c :: cs =>
    if '0' ≤ c && c ≤ '9' then digitsToNatAux (acc * 10 + (c.toNat - 48)) cs
    else none

/-- digitsToNat parses a non-empty all-digit string. -/
def digitsToNat (cs : List Char) : Option Nat :=
  if cs.isEmpty then none else digitsToNatAux 0 cs

/-- pyParseInt models Python `int(token)` on a token string: an optional
sign followed by one or more ASCII digits (whitespace stripping and
non-ASCII digits are outside the scope of the claims). -/
def pyParseInt (s : String) : Option Int :=
  match s.data with
  | '-' :: rest => Option.map (fun n => -(n : Int)) (digitsToNat rest)
  | '+' :: rest => Option.map (fun n => (n : Int)) (digitsToNat rest)
  | cs => Option.map (fun n => (n : Int)) (digitsToNat cs)

/-- strStartsWithDash models `token.startswith(a dash)` on a string. -/
def strStartsWithDash (s : String) : Bool :=
  match s.data with
  | '-' :: _ => true
  | _ => false

/-- candidateOk models the candidate-value test used at manparse.py lines
66, 753 and 765: `_check_type(int, value) or not value.startswith(dash)`.
On a coerced const (int/bool) the first disjunct is true so Python never
reaches `.startswith`; on `None` Python would raise an uncaught TypeError
inside `int(None)`, a path no claim reaches (modelled as `false`). -/
def candidateOk : PyVal → Bool
  | .vStr s => (pyParseInt s).isSome || !(strStartsWithDash s)
  | .vInt _ => true
  | .vBool _ => true
  | .vSuppress => true
  | .vNone => false

/-- coerce models `parameter.type(value)` for the types in scope, returning
`none` where Python raises ValueError (caught by `_check_type`). -/
def coerce : PType → PyVal → Option PyVal
  | .tStr, .vStr s => some (.vStr s)
  | .tStr, .vInt n => some (.vStr (toString n))
  | .tStr, .vBool b => some (.vStr (if b then "True" else "False"))
  | .tStr, .vNone => some (.vStr "None")
  | .tStr, .vSuppress => some (.vStr "==SUPPRESS==")
  | .tInt, .vStr s => Option.map PyVal.vInt (pyParseInt s)
  | .tInt, .vInt n => some (.vInt n)
  | .tInt, .vBool b => some (.vInt (if b then 1 else 0))
  | .tInt, .vNone => none
  | .tInt, .vSuppress => none

/-- checkType models `_check_type(ptype, value)`. -/
def checkType (t : PType) (v : PyVal) : Bool :=
  (coerce t v).isSome

/-- checkChoices models `_check_choices`: vacuously true without choices,
otherwise membership. -/
def checkChoices (choices : Option (List PyVal)) (v : PyVal) : Bool :=
  match choices with
  | none => true
  | some cs => cs.contains v

/-- pyValStr renders a value inside an error message (approximating the
`%s` formatting of the source; no claim depends on this text). -/
def pyValStr : PyVal → String
  | .vStr s => s
  | .vInt n => toString n
  | .vBool b => if b then "True" else "False"
  | .vNone => "None"
  | .vSuppress => "==SUPPRESS=="

/-- pTypeStr renders a type inside an error message. -/
def pTypeStr : PType → String
  | .tStr => "str"
  | .tInt => "int"

/-- parseListLoop models the per-value loop of `_parse_list` (lines 63-81):
candidate-value test, then type coercion, then choice check, collecting the
coerced values and aborting on the first failure. -/
def parseListLoop (param : Parameter) : List PyVal → Except PError (List PyVal)
  | [] => Except.ok []
  | v :: rest =>
    if candidateOk v then
      match coerce param.ptype v with
      | some w =>
        if checkChoices param.choices w then
          match parseListLoop param rest with
          | Except.ok ws => Except.ok (w :: ws)
          | Except.error e => Except.error e
        else Except.error ⟨some param.name, s!"{pyValStr w} not in choices"⟩
      | none =>
        Except.error ⟨some param.name, s!"{pyValStr v} is not {pTypeStr param.ptype}"⟩
    else Except.error ⟨some param.name, s!"{pyValStr v} is not a valid value"⟩

/-- parseList models `_parse_list` (lines 59-81): for an int arity, first
the needs-N-values length check, then the per-value loop. -/
def parseList (param : Parameter) (slist : List PyVal) : Except PError (List PyVal) :=
  match param.nargs with
  | .fixed n =>
    if slist.length < n then Except.error ⟨some param.name, s!"needs {n} values"⟩
    else parseListLoop param slist
  | _ => parseListLoop param slist

/-- storeFinish models lines 776-779 of `_store_action`: store the single
value at index 0 when the arity was left unspecified (`default_nargs`),
otherwise store the whole list.  (With `default_nargs` true the source is
only reached through the int-arity branch, so the `headD` fallback for an
empty list is dead code, as `list_values[0]` would be in Python.) -/
def storeFinish (param : Parameter) (ns : Namespace) (lv : List PyVal) : Namespace :=
  if param.default_nargs then nsSet ns param.dest (StoredVal.scalar (lv.headD PyVal.vNone))
  else nsSet ns param.dest (StoredVal.list lv)

/-- storeAction models `_store_action` (lines 729-781): the repeated-dest
check, the fixed booleans, and the arity-driven consumption for fixed,
optional-one and one-or-more/zero-or-more arities.  The `?` lookahead guard
`len(args) != external_index+1` is modelled by the `args[idx+1]?` lookup
(the scan keeps the cursor within bounds). -/
def storeAction (param : Parameter) (ns : Namespace) (idx : Nat) (args : List String) :
    Except PError (Namespace × Nat) :=
  if nsContains ns param.dest then
    Except.error ⟨some param.name, "passed more than one time"⟩
  else
    match param.action with
    | PAction.store_true => Except.ok (nsSet ns param.dest (StoredVal.scalar (PyVal.vBool true)), idx)
    | PAction.store_false => Except.ok (nsSet ns param.dest (StoredVal.scalar (PyVal.vBool false)), idx)
    | _ =>
      match param.nargs with
      | Nargs.fixed n =>
        let largs := List.map PyVal.vStr (List.take n (List.drop (idx + 1) args))
        match parseList param largs with
        | Except.error e => Except.error e
        | Except.ok lv =>
          if lv.length = 1 then
            Except.ok (nsSet ns param.dest (StoredVal.scalar (lv.headD PyVal.vNone)), idx + n)
          else
            Except.ok (nsSet ns param.dest (StoredVal.list lv), idx + n)
      | Nargs.opt =>
        match args[idx + 1]? with
        | some a =>
          if candidateOk (PyVal.vStr a) then
            match parseList param [PyVal.vStr a] with
            | Except.error e => Except.error e
            | Except.ok lv => Except.ok (storeFinish param ns lv, idx + 1)
          else
            match parseList param [param.const] with
            | Except.error e => Except.error e
            | Except.ok lv => Except.ok (storeFinish param ns lv, idx)
        | none =>
          match parseList param [param.const] with
          | Except.error e => Except.error e
          | Except.ok lv => Except.ok (storeFinish param ns lv, idx)
      | _ =>
        let raw := List.takeWhile (fun a => candidateOk (PyVal.vStr a)) (List.drop (idx + 1) args)
        match parseList param (List.map PyVal.vStr raw) with
        | Except.error e => Except.error e
        | Except.ok lv =>
          if param.nargs == Nargs.plus && lv.length == 0 then
            Except.error ⟨some param.name, "need at least one value"⟩
          else Except.ok (storeFinish param ns lv, idx + raw.length)

/-- POut is the outcome of an operation that can also terminate the process
through the help/version actions (which print and exit). -/
inductive POut (α : Type) where
  | ok (a : α)
  | err (e : PError)
  | exited
deriving DecidableEq, Repr

/-- ParserState models the mutable state of a `ParameterParser`: the
registry, the list of short names resolved so far (note: initialised once in
`__init__`, appended to by every parse), and the two constraint graphs keyed
by the raw declaration strings. -/
structure ParserState where
  parameters : List Parameter
  user_name_parameters : List String
  dependency_params_restrictions : List (String × List String)
  incompatible_params_restrictions : List (String × List String)
deriving DecidableEq, Repr

/-- validParameter models `_valid_parameter`: first registered parameter
whose short (or long) name equals the query, else nothing. -/
def validParameter (S : ParserState) (short : Bool) (p : String) : Option Parameter :=
  if short then List.find? (fun q => q.name == p) S.parameters
  else List.find? (fun q => q.long_name == some p) S.parameters

/-- doAction models `_do_action`: help/version print and exit, otherwise
store. -/
def doAction (param : Parameter) (ns : Namespace) (idx : Nat) (args : List String) :
    POut (Namespace × Nat) :=
  match param.action with
  | PAction.help => POut.exited
  | PAction.version => POut.exited
  | _ =>
    match storeAction param ns idx args with
    | Except.ok r => POut.ok r
    | Except.error e => POut.err e

/-- scanBundle models the inner loop of `parse_params` over the letters of a
short-flag bundle: each letter resolves to a registered short name (appended
to `user_name_parameters` before the action runs) or the parse fails. -/
def scanBundle (S : ParserState) (args : List String) :
    List Char → List String → Namespace → Nat → POut (List String × Namespace × Nat)
  | [], names, ns, idx => POut.ok (names, ns, idx)
  | c :: rest, names, ns, idx =>
    match validParameter S true c.toString with
    | some param =>
      match doAction param ns idx args with
      | POut.ok (ns2, idx2) => scanBundle S args rest (names ++ [param.name]) ns2 idx2
      | POut.err e => POut.err e
      | POut.exited => POut.exited
    | none =>
      let cs := c.toString
      POut.err ⟨none, s!"-{cs} not a valid parameter"⟩

/-- strMkDrop builds the token with its first k characters removed
(modelling the single `replace` of the leading dash or double dash of an
already-validated flag token). -/
def strMkDrop (s : String) (k : Nat) : String :=
  String.mk (List.drop k s.data)

/-- shortBundleMatch models the regex match for a dash followed by one or
more ASCII letters (the short-bundle shape at line 612). -/
def shortBundleMatch (s : String) : Bool :=
  match s.data with
  | '-' :: rest => !rest.isEmpty && rest.all isAsciiLetter
  | _ => false

/-- shortCommandMatch models the registration regex for a dash followed by
exactly one ASCII letter (line 423). -/
def shortCommandMatch (s : String) : Bool :=
  match s.data with
  | ['-', c] => isAsciiLetter c
  | _ => false

/-- longTailMatch is a recursive matcher for the regex fragment consisting
of a star of letters-or-underscores followed by one final letter, anchored
at the end. -/
def longTailMatch : List Char → Bool
  | [] => false
  | [c] => isAsciiLetter c
  | c :: d :: rest => isLetterOrUnderscore c && longTailMatch (d :: rest)

/-- longNameRegexMatch matches the name part of the long-flag regex: at
least two letters, then letters or underscores, then a final letter.
After the mandatory first two letters, any further letters of the
at-least-two-letters block and the letters-or-underscores block merge into
one letters-or-underscores star, so the name part matches exactly when it
has two leading letters followed by `longTailMatch`. -/
def longNameRegexMatch : List Char → Bool
  | c1 :: c2 :: rest => isAsciiLetter c1 && isAsciiLetter c2 && longTailMatch rest
  | _ => false

/-- matchLongFormat models the anchored long-flag regex of lines 435 and
623: two dashes followed by a matching name part. -/
def matchLongFormat (s : String) : Bool :=
  match s.data with
  | '-' :: '-' :: name => longNameRegexMatch name
  | _ => false

/-- scanLoop models the main `while index < args_len` loop of
`parse_params` (lines 607-637), with explicit fuel for termination; each
iteration consumes at least one token, so fuel `args.length + 1` (used by
`scanResult`) never runs out. -/
def scanLoop (S : ParserState) (args : List String) :
    Nat → List String → Namespace → Nat → POut (List String × Namespace)
  | 0, names, ns, idx =>
    if args.length ≤ idx then POut.ok (names, ns)
    else POut.err ⟨none, "model fuel exhausted"⟩
  | fuel + 1, names, ns, idx =>
    if h : idx < args.length then
      let tok := args[idx]
      if shortBundleMatch tok then
        match scanBundle S args (List.drop 1 tok.data) names ns idx with
        | POut.ok (names2, ns2, idx2) => scanLoop S args fuel names2 ns2 (idx2 + 1)
        | POut.err e => POut.err e
        | POut.exited => POut.exited
      else if matchLongFormat tok then
        let lname := strMkDrop tok 2
        match validParameter S false lname with
        | some param =>
          match doAction param ns idx args with
          | POut.ok (ns2, idx2) => scanLoop S args fuel (names ++ [param.name]) ns2 (idx2 + 1)
          | POut.err e => POut.err e
          | POut.exited => POut.exited
        | none => POut.err ⟨none, s!"--{lname} not valid parameter"⟩
      else POut.err ⟨none, s!"{tok} not a valid parameter format"⟩
    else POut.ok (names, ns)

/-- scanResult runs the scan of a parse call: the namespace starts empty
(the `namespace=None` default), while the resolved-name list starts from
the parser state, as in the source. -/
def scanResult (S : ParserState) (args : List String) : POut (List String × Namespace) :=
  scanLoop S args (args.length + 1) S.user_name_parameters [] 0

/-- stripFirstDash models `s.replace(dash, empty, 1)`: remove the first
occurrence of the dash character. -/
def removeFirstDashAux : List Char → List Char
  | [] => []
  | c :: rest => if c = '-' then rest else c :: removeFirstDashAux rest

/-- stripFirstDash on strings. -/
def stripFirstDash (s : String) : String :=
  String.mk (removeFirstDashAux s.data)

/-- requiredMissing models `_check_required_param`: required parameters
whose dest is absent from the namespace, in registry order. -/
def requiredMissing (S : ParserState) (ns : Namespace) : List Parameter :=
  List.filter (fun p => !nsContains ns p.dest) (List.filter (fun p => p.required) S.parameters)

/-- incompatError models the incompatibility check of lines 649-655: for
each graph entry whose key (first dash stripped) was resolved, the resolved
members of its restriction list; the first non-empty such list is an error. -/
def incompatError (S : ParserState) (names : List String) :
    List (String × List String) → Option PError
  | [] => none
  | (value, restrictions) :: rest =>
    let v := stripFirstDash value
    if names.contains v then
      let result := List.filter (fun i => names.contains (stripFirstDash i)) restrictions
      if !result.isEmpty then
        some ⟨Option.map (fun q => q.name) (validParameter S true v), s!"incompatible parameters {result}"⟩
      else incompatError S names rest
    else incompatError S names rest

/-- dependError models the dependency check of lines 658-664: for each
graph entry whose key was resolved, the unresolved members of its
restriction list; the first non-empty such list is an error. -/
def dependError (S : ParserState) (names : List String) :
    List (String × List String) → Option PError
  | [] => none
  | (value, restrictions) :: rest =>
    let v := stripFirstDash value
    if names.contains v then
      let result := List.filter (fun i => !names.contains (stripFirstDash i)) restrictions
      if !result.isEmpty then
        some ⟨Option.map (fun q => q.name) (validParameter S true v), s!"missing required parameters {result}"⟩
      else dependError S names rest
    else dependError S names rest

/-- completeNamespace models `_complete_namespace` (lines 719-724): every
registered parameter whose default is not the suppressed sentinel and whose
dest is still absent gets its default written. -/
def completeNamespace (params : List Parameter) (ns : Namespace) : Namespace :=
  match params with
  | [] => ns
  | p :: rest =>
    if p.default = PyVal.vSuppress then completeNamespace rest ns
    else if nsContains ns p.dest then completeNamespace rest ns
    else completeNamespace rest (nsSet ns p.dest (StoredVal.scalar p.default))

/-- finishParse models the tail of `parse_params` (lines 639-669): the
required check, incompatibility check, dependency check (in that order),
then default completion; the parser state keeps the grown resolved-name
list. -/
def finishParse (S : ParserState) (names : List String) (ns : Namespace) :
    POut (ParserState × Namespace) :=
  let S2 := { S with user_name_parameters := names }
  let missing := requiredMissing S2 ns
  if !missing.isEmpty then
    let mpl := List.map (fun p => p.dest) missing
    POut.err ⟨none, s!"missing required parameters {mpl}"⟩
  else
    match incompatError S2 names S2.incompatible_params_restrictions with
    | some e => POut.err e
    | none =>
      match dependError S2 names S2.dependency_params_restrictions with
      | some e => POut.err e
      | none => POut.ok (S2, completeNamespace S2.parameters ns)

/-- parseParams models `parse_params(args)` (with the default fresh
namespace): scan, then the finalizer.  An error outcome corresponds to the
process-terminating `_error` call of the source. -/
def parseParams (S : ParserState) (args : List String) : POut (ParserState × Namespace) :=
  match scanResult S args with
  | POut.ok (names, ns) => finishParse S names ns
  | POut.err e => POut.err e
  | POut.exited => POut.exited

/-- mkParameter models `_Parameter.__init__` (lines 246-341): the action
check is the closed `PAction` type; the store-true/store-false default
override, default/const type coercion, choice coercion, and the nargs /
`default_nargs` bookkeeping follow the source order.  (The invalid-type and
invalid-action errors are unrepresentable because `PType` and `PAction` are
closed; an uncoercible choice raises an uncaught ValueError in Python,
modelled here as an error outcome.) -/
def mkParameter (name : String) (long_name : Option String) (dest : String)
    (ptypeIn : Option PType) (action : PAction) (nargsIn : Option Nargs)
    (defaultIn : PyVal) (constIn : PyVal) (required : Bool)
    (choicesIn : Option (List PyVal)) : Except PError Parameter := do
  let ptype := ptypeIn.getD PType.tStr
  let d0 := match action with
    | PAction.store_true => PyVal.vBool false
    | PAction.store_false => PyVal.vBool true
    | _ => defaultIn
  let d1 ←
    if d0 = PyVal.vNone || d0 = PyVal.vSuppress then pure d0
    else
      match coerce ptype d0 with
      | some d => pure d
      | none => throw ⟨some name, s!"default value {pyValStr d0} is not {pTypeStr ptype}"⟩
  let c1 ←
    if constIn = PyVal.vNone then pure PyVal.vNone
    else
      match coerce ptype constIn with
      | some c => pure c
      | none => throw ⟨some name, s!"const value {pyValStr constIn} is not {pTypeStr ptype}"⟩
  let ch1 ←
    match choicesIn with
    | none => pure none
    | some cs =>
      match List.mapM (coerce ptype) cs with
      | some cs2 => pure (some cs2)
      | none => throw ⟨some name, "choices value cannot be coerced"⟩
  let nargs1 := match nargsIn with
    | none => Nargs.fixed 1
    | some ng => ng
  let defaultNargs := match nargsIn with
    | none => true
    | some _ => false
  let nargs2 ←
    if action = PAction.store_true || action = PAction.store_false then pure (Nargs.fixed 0)
    else
      if nargs1 = Nargs.opt then
        if d1 = PyVal.vNone then throw ⟨some name, "default value not set for nargs ?"⟩
        else if c1 = PyVal.vNone then throw ⟨some name, "const value not set for nargs ?"⟩
        else pure nargs1
      else pure nargs1
  pure ⟨name, long_name, dest, ptype, action, nargs2, defaultNargs, d1, c1, required, ch1⟩

/-- addParameter models `ParameterParser.add_parameter` (lines 420-464):
short-flag grammar and uniqueness, long-flag grammar and uniqueness, dest
resolution and uniqueness, then `_Parameter` construction and registration.
An error outcome corresponds to `_error` (process exit 2). -/
def addParameter (S : ParserState) (shortCmd : String) (longCmd : Option String)
    (destIn : Option String) (ptypeIn : Option PType) (action : PAction)
    (nargsIn : Option Nargs) (defaultIn : PyVal) (constIn : PyVal) (required : Bool)
    (choicesIn : Option (List PyVal)) : Except PError ParserState := do
  if !shortCommandMatch shortCmd then
    throw ⟨none, s!"{shortCmd} is not valid as short command"⟩
  let name := stripFirstDash shortCmd
  if S.parameters.any (fun q => q.name == name) then
    throw ⟨none, s!"{name} duplicated as short command"⟩
  let lname ←
    match longCmd with
    | none => pure none
    | some lc =>
      if !matchLongFormat lc then
        throw (PError.mk none s!"{lc} is not valid as long command")
      else
        let ln := strMkDrop lc 2
        if S.parameters.any (fun q => q.long_name == some ln) then
          throw (PError.mk none s!"{ln} duplicate as long command")
        else pure (some ln)
  let dest := match destIn with
    | some d => d
    | none => match lname with
      | some ln => ln
      | none => name
  if S.parameters.any (fun q => q.dest == dest) then
    throw ⟨none, s!"{dest} duplicate as dest"⟩
  let p ← mkParameter name lname dest ptypeIn action nargsIn defaultIn constIn required choicesIn
  pure { S with parameters := S.parameters ++ [p] }

/-- graphFind looks up a key in a constraint graph. -/
def graphFind (g : List (String × List String)) (k : String) : Option (List String) :=
  Option.map (fun e => e.2) (List.find? (fun e => e.1 == k) g)

/-- graphSet overwrites or adds a key in a constraint graph. -/
def graphSet (g : List (String × List String)) (k : String) (v : List String) :
    List (String × List String) :=
  if g.any (fun e => e.1 == k) then
    List.map (fun e => if e.1 == k then (k, v) else e) g
  else g ++ [(k, v)]

/-- graphDedup models the per-key `list(set(value))` pass at the end of the
two restriction methods (deduplication; the set ordering is unspecified in
Python, so only membership and multiplicity are meaningful). -/
def graphDedup (g : List (String × List String)) : List (String × List String) :=
  List.map (fun e => (e.1, e.2.dedup)) g

/-- findInvalidRestriction models the validation loop over the restriction
list: the first entry whose dash-stripped form is not a registered short
name. -/
def findInvalidRestriction (S : ParserState) : List String → Option String
  | [] => none
  | r :: rest =>
    if (validParameter S true (stripFirstDash r)).isSome then findInvalidRestriction S rest
    else some r

/-- depLoop models the per-parameter loop of `dependency_params` (lines
494-517): existence check, self-restriction check, collision check against
the incompatibility graph under the same key, then append-or-create in the
dependency graph.  (Python threads one shared restriction list object
through several keys; the final `list(set(...))` pass makes the aliasing
unobservable, so the graphs are updated functionally here.) -/
def depLoop (restriction : List String) : List String → ParserState → Except PError ParserState
  | [], S => Except.ok S
  | p :: rest, S =>
    if (validParameter S true (stripFirstDash p)).isNone then
      Except.error ⟨none, s!"dependency_params method: {p} not exists"⟩
    else if restriction.contains p then
      Except.error ⟨none, s!"dependency_params method: {p} cannot be a restriction to itself"⟩
    else
      match graphFind S.incompatible_params_restrictions p with
      | some incList =>
        (match List.find? (fun r => incList.contains r) restriction with
         | some r =>
           Except.error ⟨none, s!"dependency_params method: {p} cannot be a dependency and incompatibility to the same param {r}"⟩
         | none =>
           depLoop restriction rest
             { S with dependency_params_restrictions :=
                 match graphFind S.dependency_params_restrictions p with
                 | some l => graphSet S.dependency_params_restrictions p (l ++ restriction)
                 | none => graphSet S.dependency_params_restrictions p restriction })
      | none =>
        depLoop restriction rest
          { S with dependency_params_restrictions :=
              match graphFind S.dependency_params_restrictions p with
              | some l => graphSet S.dependency_params_restrictions p (l ++ restriction)
              | none => graphSet S.dependency_params_restrictions p restriction }

/-- dependencyParams models `dependency_params(*args)` with the last
argument already in list form (a single string is the singleton list): the
arity check, restriction validation, per-parameter loop, and the final
per-key deduplication. -/
def dependencyParams (S : ParserState) (ps : List String) (restriction : List String) :
    Except PError ParserState :=
  if ps.isEmpty then
    Except.error ⟨none, "dependency_params method: it needs two parameters at least"⟩
  else
    match findInvalidRestriction S restriction with
    | some r =>
      Except.error ⟨none, s!"dependency_params method: {r} not exists"⟩
    | none =>
      match depLoop restriction ps S with
      | Except.error e => Except.error e
      | Except.ok S2 =>
        Except.ok { S2 with dependency_params_restrictions := graphDedup S2.dependency_params_restrictions }

/-- incLoop models the per-parameter loop of `incompatible_params` (lines
554-577), the mirror image of `depLoop`: the collision check is against the
dependency graph under the same key, the union goes into the
incompatibility graph. -/
def incLoop (restriction : List String) : List String → ParserState → Except PError ParserState
  | [], S => Except.ok S
  | p :: rest, S =>
    if (validParameter S true (stripFirstDash p)).isNone then
      Except.error ⟨none, s!"incompatible_params method: {p} not exists"⟩
    else if restriction.contains p then
      Except.error ⟨none, s!"incompatible_params method: {p} cannot be a restriction to itself"⟩
    else
      match graphFind S.dependency_params_restrictions p with
      | some depList =>
        (match List.find? (fun r => depList.contains r) restriction with
         | some r =>
           Except.error ⟨none, s!"incompatible_params method: {p} cannot be a dependency and incompatibility to the same param {r}"⟩
         | none =>
           incLoop restriction rest
             { S with incompatible_params_restrictions :=
                 match graphFind S.incompatible_params_restrictions p with
                 | some l => graphSet S.incompatible_params_restrictions p (l ++ restriction)
                 | none => graphSet S.incompatible_params_restrictions p restriction })
      | none =>
        incLoop restriction rest
          { S with incompatible_params_restrictions :=
              match graphFind S.incompatible_params_restrictions p with
              | some l => graphSet S.incompatible_params_restrictions p (l ++ restriction)
              | none => graphSet S.incompatible_params_restrictions p restriction }

/-- incompatibleParams models `incompatible_params(*args)` with the last
argument already in list form. -/
def incompatibleParams (S : ParserState) (ps : List String) (restriction : List String) :
    Except PError ParserState :=
  if ps.isEmpty then
    Except.error ⟨none, "incompatible_params method: it needs two parameters at least"⟩
  else
    match findInvalidRestriction S restriction with
    | some r =>
      Except.error ⟨none, s!"incompatible_params method: {r} not exists"⟩
    | none =>
      match incLoop restriction ps S with
      | Except.error e => Except.error e
      | Except.ok S2 =>
        Except.ok { S2 with incompatible_params_restrictions := graphDedup S2.incompatible_params_restrictions }

/-- emptyParser models `ParameterParser(add_help=False)` (no version):
empty registry, empty resolved-name list, empty constraint graphs. -/
def emptyParser : ParserState := ⟨[], [], [], []⟩

/-- paramN is the `_Parameter` built by registering `-n` with type integer
and the arity left unspecified (so nargs defaults to fixed 1 with
`default_nargs` set). -/
def paramN : Parameter :=
  ⟨"n", none, "n", PType.tInt, PAction.store, Nargs.fixed 1, true,
   PyVal.vNone, PyVal.vNone, false, none⟩

/-- parserN is the parser holding exactly `paramN`. -/
def parserN : ParserState := ⟨[paramN], [], [], []⟩

/-- paramN1 is the `_Parameter` built by registering `-n` with type integer
and an explicitly specified arity fixed 1 (so `default_nargs` is false). -/
def paramN1 : Parameter :=
  ⟨"n", none, "n", PType.tInt, PAction.store, Nargs.fixed 1, false,
   PyVal.vNone, PyVal.vNone, false, none⟩

/-- parserN1 is the parser holding exactly `paramN1`. -/
def parserN1 : ParserState := ⟨[paramN1], [], [], []⟩

/-- paramO is the `_Parameter` built by registering `-o` with type integer,
arity optional-one, default 10 and const 1. -/
def paramO : Parameter :=
  ⟨"o", none, "o", PType.tInt, PAction.store, Nargs.opt, false,
   PyVal.vInt 10, PyVal.vInt 1, false, none⟩

/-- parserO is the parser holding exactly `paramO`. -/
def parserO : ParserState := ⟨[paramO], [], [], []⟩

/-- mkBoolParam is the `_Parameter` built by registering a store-true flag
with everything else defaulted; note the source coerces the forced `False`
default through the default str type, yielding the string form. -/
def mkBoolParam (name : String) : Parameter :=
  ⟨name, none, name, PType.tStr, PAction.store_true, Nargs.fixed 0, true,
   PyVal.vStr "False", PyVal.vNone, false, none⟩

/-- parserAB holds the two store-true flags `-a` and `-b`. -/
def parserAB : ParserState := ⟨[mkBoolParam "a", mkBoolParam "b"], [], [], []⟩

/-- parserABdep is parserAB after `dependency_params(-a, -b)`. -/
def parserABdep : ParserState :=
  ⟨[mkBoolParam "a", mkBoolParam "b"], [], [("-a", ["-b"])], []⟩

/-- parserABinc is parserAB after `incompatible_params(-a, -b)`. -/
def parserABinc : ParserState :=
  ⟨[mkBoolParam "a", mkBoolParam "b"], [], [], [("-a", ["-b"])]⟩

/-- paramX is the `_Parameter` built by registering `-x` with type integer
and zero-or-more arity. -/
def paramX : Parameter :=
  ⟨"x", none, "x", PType.tInt, PAction.store, Nargs.star, false,
   PyVal.vNone, PyVal.vNone, false, none⟩

/-- parserXY holds `-x` (zero-or-more, integer) and the store-true flag `-y`. -/
def parserXY : ParserState := ⟨[paramX, mkBoolParam "y"], [], [], []⟩

/-- paramLongAB is a parameter whose long name would be the two-letter name
ab; such a parameter cannot actually be registered (the claim under test is
exactly that the grammar rejects two-letter long names), but a parser
holding it shows that even then the parse-time grammar rejects the token. -/
def paramLongAB : Parameter :=
  ⟨"a", some "ab", "ab", PType.tStr, PAction.store, Nargs.fixed 1, true,
   PyVal.vNone, PyVal.vNone, false, none⟩

/-- parserLongAB holds exactly `paramLongAB`. -/
def parserLongAB : ParserState := ⟨[paramLongAB], [], [], []⟩

/-- tokenAccepted states that one token passes the candidate-value test,
type-coerces, and satisfies the choice check — the per-token acceptance
condition of the `_parse_list` loop. -/
def tokenAccepted (param : Parameter) (v : PyVal) : Bool :=
  candidateOk v &&
    (match coerce param.ptype v with
     | some w => checkChoices param.choices w
     | none => false)

theorem nsGet_nsSet_self (ns : Namespace) (k : String) (v : StoredVal) :
    nsGet (nsSet ns k v) k = some v := by
  induction ns with
  | nil => simp [nsSet, nsGet]
  | cons e rest ih =>
    by_cases he : e.1 = k
    · simp [nsSet, nsGet, he]
    · simp [nsSet, nsGet, he, ih]

theorem nsGet_nsSet_other (ns : Namespace) (k k2 : String) (v : StoredVal)
    (h : k ≠ k2) : nsGet (nsSet ns k v) k2 = nsGet ns k2 := by
  induction ns with
  | nil => simp [nsSet, nsGet, h]
  | cons e rest ih =>
    by_cases he : e.1 = k
    · simp [nsSet, nsGet, he, h]
    · by_cases he2 : e.1 = k2
      · simp [nsSet, nsGet, he, he2, Ne.symm h]
      · simp [nsSet, nsGet, he, he2, ih]

theorem nsContains_nsSet_self (ns : Namespace) (k : String) (v : StoredVal) :
    nsContains (nsSet ns k v) k = true := by
  induction ns with
  | nil => simp [nsSet, nsContains]
  | cons e rest ih =>
    by_cases he : e.1 = k
    · simp [nsSet, nsContains, he]
    · simp [nsSet, nsContains, he, ih]

theorem nsContains_nsSet_other (ns : Namespace) (k k2 : String) (v : StoredVal)
    (h : k ≠ k2) : nsContains (nsSet ns k v) k2 = nsContains ns k2 := by
  induction ns with
  | nil => simp [nsSet, nsContains, h]
  | cons e rest ih =>
    by_cases he : e.1 = k
    · simp [nsSet, nsContains, he, h]
    · simp [nsSet, nsContains, he, ih]

theorem nsCountKey_nsSet_other (ns : Namespace) (k k2 : String) (v : StoredVal)
    (h : k ≠ k2) : nsCountKey (nsSet ns k v) k2 = nsCountKey ns k2 := by
  induction ns with
  | nil => simp [nsSet, nsCountKey, h]
  | cons e rest ih =>
    by_cases he : e.1 = k
    · simp [nsSet, nsCountKey, he, h]
    · simp [nsSet, nsCountKey, he, ih]

theorem nsCountKey_eq_zero (ns : Namespace) (k : String)
    (h : nsContains ns k = false) : nsCountKey ns k = 0 := by
  induction ns with
  | nil => simp [nsCountKey]
  | cons e rest ih =>
    simp only [nsContains, Bool.or_eq_false_iff, decide_eq_false_iff_not] at h
    simp [nsCountKey, h.1, ih h.2]

theorem nsCountKey_nsSet_new (ns : Namespace) (k : String) (v : StoredVal)
    (h : nsContains ns k = false) : nsCountKey (nsSet ns k v) k = 1 := by
  induction ns with
  | nil => simp [nsSet, nsCountKey]
  | cons e rest ih =>
    simp only [nsContains, Bool.or_eq_false_iff, decide_eq_false_iff_not] at h
    simp [nsSet, nsCountKey, h.1, ih h.2]

theorem parseListLoop_length (param : Parameter) (l : List PyVal) (lv : List PyVal)
    (h : parseListLoop param l = Except.ok lv) : lv.length = l.length := by
  induction l generalizing lv with
  | nil =>
    simp only [parseListLoop] at h
    cases h
    rfl
  | cons v rest ih =>
    simp only [parseListLoop] at h
    by_cases hc : candidateOk v
    · simp only [hc, if_true] at h
      cases hw : coerce param.ptype v with
      | none => simp [hw] at h
      | some w =>
        simp only [hw] at h
        by_cases hch : checkChoices param.choices w
        · simp only [hch, if_true] at h
          cases hrec : parseListLoop param rest with
          | error e => simp [hrec] at h
          | ok ws =>
            simp only [hrec] at h
            cases h
            simp [ih ws hrec]
        · simp [hch] at h
    · simp [hc] at h

theorem parseListLoop_ok_iff (param : Parameter) (l : List PyVal) :
    (∃ lv, parseListLoop param l = Except.ok lv) ↔
      (∀ v ∈ l, tokenAccepted param v = true) := by
  induction l with
  | nil => simp [parseListLoop]
  | cons v rest ih =>
    constructor
    · rintro ⟨lv, h⟩
      simp only [parseListLoop] at h
      by_cases hc : candidateOk v
      · simp only [hc, if_true] at h
        cases hw : coerce param.ptype v with
        | none => simp [hw] at h
        | some w =>
          simp only [hw] at h
          by_cases hch : checkChoices param.choices w
          · simp only [hch, if_true] at h
            cases hrec : parseListLoop param rest with
            | error e => simp [hrec] at h
            | ok ws =>
              intro u hu
              rcases List.mem_cons.mp hu with rfl | hu2
              · simp [tokenAccepted, hc, hw, hch]
              · exact (ih.mp ⟨ws, hrec⟩) u hu2
          · simp [hch] at h
      · simp [hc] at h
    · intro hall
      have hv := hall v (List.mem_cons_self v rest)
      have hrest := ih.mpr (fun u hu => hall u (List.mem_cons_of_mem v hu))
      rcases hrest with ⟨ws, hws⟩
      simp only [tokenAccepted, Bool.and_eq_true] at hv
      cases hw : coerce param.ptype v with
      | none => simp [hw] at hv
      | some w =>
        refine ⟨w :: ws, ?_⟩
        have hch : checkChoices param.choices w = true := by
          have := hv.2
          simpa [hw] using this
        simp [parseListLoop, hv.1, hw, hch, hws]

theorem completeNamespace_preserve (params : List Parameter) (ns : Namespace) (d : String)
    (h : nsContains ns d = true) :
    nsGet (completeNamespace params ns) d = nsGet ns d ∧
      nsCountKey (completeNamespace params ns) d = nsCountKey ns d := by
  induction params generalizing ns with
  | nil => exact ⟨rfl, rfl⟩
  | cons p rest ih =>
    by_cases hs : p.default = PyVal.vSuppress
    · simpa [completeNamespace, hs] using ih ns h
    · by_cases hc : nsContains ns p.dest
      · simpa [completeNamespace, hs, hc] using ih ns h
      · have hne : p.dest ≠ d := by
          intro hd
          rw [hd] at hc
          exact hc h
        have h2 : nsContains (nsSet ns p.dest (StoredVal.scalar p.default)) d = true := by
          rw [nsContains_nsSet_other ns p.dest d _ hne]
          exact h
        have := ih (nsSet ns p.dest (StoredVal.scalar p.default)) h2
        simp only [completeNamespace, hs, hc, if_false, if_neg hs, Bool.false_eq_true]
        constructor
        · rw [this.1, nsGet_nsSet_other ns p.dest d _ hne]
        · rw [this.2, nsCountKey_nsSet_other ns p.dest d _ hne]

theorem completeNamespace_fills (params : List Parameter) (ns : Namespace) (p : Parameter)
    (hnodup : (List.map (fun q => q.dest) params).Nodup)
    (hp : p ∈ params) (hd : p.default ≠ PyVal.vSuppress)
    (habs : nsContains ns p.dest = false) :
    nsGet (completeNamespace params ns) p.dest = some (StoredVal.scalar p.default) ∧
      nsCountKey (completeNamespace params ns) p.dest = 1 := by
  induction params generalizing ns with
  | nil => cases hp
  | cons q rest ih =>
    simp only [List.map_cons, List.nodup_cons] at hnodup
    rcases List.mem_cons.mp hp with rfl | hp2
    · have hset := nsSet ns p.dest (StoredVal.scalar p.default)
      have hcontains : nsContains (nsSet ns p.dest (StoredVal.scalar p.default)) p.dest = true :=
        nsContains_nsSet_self ns p.dest _
      have hpres := completeNamespace_preserve rest
        (nsSet ns p.dest (StoredVal.scalar p.default)) p.dest hcontains
      simp only [completeNamespace, hd, habs, if_neg hd, Bool.false_eq_true, if_false]
      constructor
      · rw [hpres.1, nsGet_nsSet_self]
      · rw [hpres.2, nsCountKey_nsSet_new ns p.dest _ habs]
    · have hqne : q.dest ≠ p.dest := by
        intro he
        exact hnodup.1 (he ▸ List.mem_map_of_mem (fun r => r.dest) hp2)
      by_cases hs : q.default = PyVal.vSuppress
      · simpa [completeNamespace, hs] using ih ns hnodup.2 hp2 habs
      · by_cases hc : nsContains ns q.dest
        · simpa [completeNamespace, hs, hc] using ih ns hnodup.2 hp2 habs
        · have habs2 : nsContains (nsSet ns q.dest (StoredVal.scalar q.default)) p.dest = false := by
            rw [nsContains_nsSet_other ns q.dest p.dest _ hqne]
            exact habs
          simpa [completeNamespace, hs, hc] using
            ih (nsSet ns q.dest (StoredVal.scalar q.default)) hnodup.2 hp2 habs2

theorem scanBundle_names_grow (S : ParserState) (args : List String) (letters : List Char)
    (names : List String) (ns : Namespace) (idx : Nat) (names2 : List String)
    (ns2 : Namespace) (idx2 : Nat)
    (h : scanBundle S args letters names ns idx = POut.ok (names2, ns2, idx2)) :
    ∃ l, names2 = names ++ l := by
  induction letters generalizing names ns idx with
  | nil =>
    simp only [scanBundle] at h
    cases h
    exact ⟨[], by simp⟩
  | cons c rest ih =>
    simp only [scanBundle] at h
    split at h
    · rename_i param hv
      split at h
      · rcases ih _ _ _ h with ⟨l, hl⟩
        exact ⟨param.name :: l, by simp [hl]⟩
      · cases h
      · cases h
    · cases h

theorem scanLoop_names_grow (S : ParserState) (args : List String) (fuel : Nat)
    (names : List String) (ns : Namespace) (idx : Nat) (names2 : List String)
    (ns2 : Namespace)
    (h : scanLoop S args fuel names ns idx = POut.ok (names2, ns2)) :
    ∃ l, names2 = names ++ l := by
  induction fuel generalizing names ns idx with
  | zero =>
    simp only [scanLoop] at h
    split at h
    · cases h
      exact ⟨[], by simp⟩
    · cases h
  | succ fuel ih =>
    simp only [scanLoop] at h
    split at h
    · split at h
      · split at h
        · rename_i hb
          rcases scanBundle_names_grow S args _ names ns idx _ _ _ hb with ⟨l1, hl1⟩
          rcases ih _ _ _ h with ⟨l2, hl2⟩
          exact ⟨l1 ++ l2, by simp [hl2, hl1]⟩
        · cases h
        · cases h
      · split at h
        · split at h
          · rename_i param hv
            split at h
            · rcases ih _ _ _ h with ⟨l2, hl2⟩
              exact ⟨param.name :: l2, by simp [hl2]⟩
            · cases h
            · cases h
          · cases h
        · cases h
    · cases h
      exact ⟨[], by simp⟩

theorem finishParse_ok_decompose (S : ParserState) (names : List String) (ns0 : Namespace)
    (S2 : ParserState) (ns : Namespace)
    (h : finishParse S names ns0 = POut.ok (S2, ns)) :
    S2 = { S with user_name_parameters := names } ∧
      ns = completeNamespace S.parameters ns0 := by
  simp only [finishParse] at h
  split at h
  · cases h
  · split at h
    · cases h
    · split at h
      · cases h
      · cases h
        exact ⟨rfl, rfl⟩

theorem parseParams_ok_decompose (S : ParserState) (args : List String)
    (S2 : ParserState) (ns : Namespace)
    (h : parseParams S args = POut.ok (S2, ns)) :
    ∃ names ns0, scanResult S args = POut.ok (names, ns0) ∧
      S2 = { S with user_name_parameters := names } ∧
      ns = completeNamespace S.parameters ns0 ∧
      ∃ l, names = S.user_name_parameters ++ l := by
  simp only [parseParams] at h
  split at h
  · rename_i names ns0 hscan
    rcases finishParse_ok_decompose S names ns0 S2 ns h with ⟨h1, h2⟩
    rcases scanLoop_names_grow S args (args.length + 1) S.user_name_parameters [] 0 names ns0
      hscan with ⟨l, hl⟩
    exact ⟨names, ns0, hscan, h1, h2, l, hl⟩
  · cases h
  · cases h

theorem parseList_fixed_ok (param : Parameter) (largs : List PyVal) (lv : List PyVal)
    (n : Nat) (hn : param.nargs = Nargs.fixed n)
    (h : parseList param largs = Except.ok lv) :
    lv.length = largs.length ∧ n ≤ largs.length := by
  simp only [parseList, hn] at h
  split at h
  · cases h
  · rename_i hlen
    exact ⟨parseListLoop_length _ _ _ h, Nat.le_of_not_lt hlen⟩

/-- C2: the claim says a fixed-arity parameter stores a scalar only when
N is 1 and the arity was left unspecified, and a list in every other case
(including an explicitly specified fixed 1).  The code disagrees: in the
int-arity branch of `_store_action` (lines 741-748) the scalar/list choice
tests only whether the collected list has length 1, ignoring
`default_nargs`.  Amended claim, proved here: on a successful fixed-N
consumption the stored value is the single coerced scalar exactly when
N is 1 — whether or not the caller specified the arity — and otherwise the
list of the N coerced values. -/
theorem C2_fixed_arity_scalar_iff_single (param : Parameter) (ns : Namespace) (idx : Nat)
    (args : List String) (n : Nat) (ns2 : Namespace) (idx2 : Nat)
    (ha : param.action = PAction.store) (hn : param.nargs = Nargs.fixed n)
    (h : storeAction param ns idx args = Except.ok (ns2, idx2)) :
    (n = 1 → ∃ v, nsGet ns2 param.dest = some (StoredVal.scalar v)) ∧
      (n ≠ 1 → ∃ vs, nsGet ns2 param.dest = some (StoredVal.list vs) ∧ vs.length = n) := by
  simp only [storeAction, ha, hn] at h
  split at h
  · cases h
  · split at h
    · cases h
    · rename_i lv hpl
      have hlen := parseList_fixed_ok param _ lv n hn hpl
      have hlargs : (List.map PyVal.vStr (List.take n (List.drop (idx + 1) args))).length ≤ n := by
        simp [List.length_take]
      have hlv : lv.length = n := Nat.le_antisymm (hlen.1 ▸ hlargs) (hlen.1 ▸ hlen.2)
      split at h
      · rename_i hone
        cases h
        constructor
        · intro _
          exact ⟨lv.headD PyVal.vNone, nsGet_nsSet_self ns param.dest _⟩
        · intro hne
          exact absurd (hlv ▸ hone) hne
      · rename_i hone
        cases h
        constructor
        · intro h1
          exact absurd (hlv.trans h1) hone
        · intro _
          exact ⟨lv, nsGet_nsSet_self ns param.dest _, hlv⟩

/-- C2 witness: the amended theorem applied to the explicit fixed-1
parameter `-n` consuming the token 5. -/
theorem C2_fixed_arity_scalar_iff_single_witness :
    paramN1.action = PAction.store ∧ paramN1.nargs = Nargs.fixed 1 ∧
      storeAction paramN1 [] 0 ["-n", "5"] =
        Except.ok ([("n", StoredVal.scalar (PyVal.vInt 5))], 1) ∧
      ((1 = 1 → ∃ v, nsGet [("n", StoredVal.scalar (PyVal.vInt 5))] paramN1.dest =
          some (StoredVal.scalar v)) ∧
        (1 ≠ 1 → ∃ vs, nsGet [("n", StoredVal.scalar (PyVal.vInt 5))] paramN1.dest =
          some (StoredVal.list vs) ∧ vs.length = 1)) :=
  ⟨rfl, rfl, rfl,
    C2_fixed_arity_scalar_iff_single paramN1 [] 0 ["-n", "5"] 1
      [("n", StoredVal.scalar (PyVal.vInt 5))] 1 rfl rfl rfl⟩

/-- C2 counterexample: registering `-n` with type integer and an
explicitly specified arity fixed 1, then parsing the flag with token 5,
stores the scalar 5 — not the one-element list the claim requires for an
explicitly specified fixed 1. -/
theorem C2_counterexample_explicit_fixed1_scalar :
    addParameter emptyParser "-n" none none (some PType.tInt) PAction.store
        (some (Nargs.fixed 1)) PyVal.vNone PyVal.vNone false none = Except.ok parserN1 ∧
      parseParams parserN1 ["-n", "5"] =
        POut.ok ({ parserN1 with user_name_parameters := ["n"] },
          [("n", StoredVal.scalar (PyVal.vInt 5))]) ∧
      StoredVal.scalar (PyVal.vInt 5) ≠ StoredVal.list [PyVal.vInt 5] :=
  ⟨rfl, rfl, by decide⟩

/-- C3: for a fixed-N parameter, `_store_action` slices exactly the next N
tokens as candidates unconditionally (lines 741-744) — the result of the
consumption depends only on those N tokens, flag-looking or not — and the
arity error is exactly the needs-N-values error of `_parse_list`, raised
precisely when fewer than N tokens remain; with N tokens available,
success is equivalent to every one of the N candidates passing the
per-token validation (candidate-value test, coercion, choices). -/
theorem C3_fixed_arity_consumption (param : Parameter) (ns : Namespace) (idx : Nat)
    (args : List String) (n : Nat)
    (ha : param.action = PAction.store) (hn : param.nargs = Nargs.fixed n)
    (hd : nsContains ns param.dest = false) :
    (args.length - (idx + 1) < n →
      storeAction param ns idx args =
        Except.error ⟨some param.name, s!"needs {n} values"⟩) ∧
      (n ≤ args.length - (idx + 1) →
        storeAction param ns idx args = storeAction param ns idx (List.take (idx + 1 + n) args) ∧
          ((∃ ns2, storeAction param ns idx args = Except.ok (ns2, idx + n)) ↔
            ∀ tok ∈ List.take n (List.drop (idx + 1) args),
              tokenAccepted param (PyVal.vStr tok) = true)) := by
  constructor
  · intro hlt
    have hlen : (List.map PyVal.vStr (List.take n (List.drop (idx + 1) args))).length < n := by
      simp only [List.length_map, List.length_take, List.length_drop]
      exact Nat.lt_of_le_of_lt (Nat.min_le_right _ _) (by omega)
    simp only [storeAction, ha, hn, hd, Bool.false_eq_true, if_false, parseList]
    rw [if_pos hlen]
  · intro hge
    have hslice : List.take n (List.drop (idx + 1) (List.take (idx + 1 + n) args)) =
        List.take n (List.drop (idx + 1) args) := by
      rw [List.drop_take]
      have : idx + 1 + n - (idx + 1) = n := by omega
      rw [this, List.take_take, Nat.min_self]
    have hlen : (List.map PyVal.vStr (List.take n (List.drop (idx + 1) args))).length = n := by
      simp only [List.length_map, List.length_take, List.length_drop]
      exact Nat.min_eq_left (by omega)
    constructor
    · simp only [storeAction, ha, hn, hd, Bool.false_eq_true, if_false, hslice]
    · have hnotlt : ¬((List.map PyVal.vStr (List.take n (List.drop (idx + 1) args))).length < n) := by
        rw [hlen]
        omega
      constructor
      · rintro ⟨ns2, hok⟩
        simp only [storeAction, ha, hn, hd, Bool.false_eq_true, if_false, parseList,
          if_neg hnotlt] at hok
        intro tok htok
        cases hloop : parseListLoop param (List.map PyVal.vStr (List.take n (List.drop (idx + 1) args))) with
        | error e => rw [hloop] at hok; cases hok
        | ok lv =>
          have hall := (parseListLoop_ok_iff param _).mp ⟨lv, hloop⟩
          exact hall (PyVal.vStr tok) (List.mem_map_of_mem PyVal.vStr htok)
      · intro hall
        have hall2 : ∀ v ∈ List.map PyVal.vStr (List.take n (List.drop (idx + 1) args)),
            tokenAccepted param v = true := by
          intro v hv
          rcases List.mem_map.mp hv with ⟨tok, htok, rfl⟩
          exact hall tok htok
        rcases (parseListLoop_ok_iff param _).mpr hall2 with ⟨lv, hloop⟩
        simp only [storeAction, ha, hn, hd, Bool.false_eq_true, if_false, parseList,
          if_neg hnotlt, hloop]
        by_cases hone : lv.length = 1
        · exact ⟨nsSet ns param.dest (StoredVal.scalar (lv.headD PyVal.vNone)), by rw [if_pos hone]⟩
        · exact ⟨nsSet ns param.dest (StoredVal.list lv), by rw [if_neg hone]⟩

/-- C3 witness: the fixed-arity consumption theorem applied to `-n` at
index 0 with one token available. -/
theorem C3_fixed_arity_consumption_witness :
    (paramN.action = PAction.store ∧ paramN.nargs = Nargs.fixed 1 ∧
      nsContains [] paramN.dest = false) ∧
      ((["-n", "7"].length - (0 + 1) < 1 →
          storeAction paramN [] 0 ["-n", "7"] =
            Except.error ⟨some paramN.name, "needs 1 values"⟩) ∧
        (1 ≤ ["-n", "7"].length - (0 + 1) →
          storeAction paramN [] 0 ["-n", "7"] =
              storeAction paramN [] 0 (List.take (0 + 1 + 1) ["-n", "7"]) ∧
            ((∃ ns2, storeAction paramN [] 0 ["-n", "7"] = Except.ok (ns2, 0 + 1)) ↔
              ∀ tok ∈ List.take 1 (List.drop (0 + 1) ["-n", "7"]),
                tokenAccepted paramN (PyVal.vStr tok) = true))) :=
  ⟨⟨rfl, rfl, rfl⟩, C3_fixed_arity_consumption paramN [] 0 ["-n", "7"] 1 rfl rfl rfl⟩

/-- C10: for a zero-or-more parameter whose flag is last or followed by a
token failing the candidate-value test, `_store_action` succeeds storing
the empty list at the dest and consuming no extra token; and concretely,
parsing the flag pair where `-x` is zero-or-more and `-y` a boolean flag
stores the empty list for x, continues the scan, and sets y. -/
theorem C10_zero_or_more_empty (param : Parameter) (ns : Namespace) (idx : Nat)
    (args : List String)
    (ha : param.action = PAction.store) (hn : param.nargs = Nargs.star)
    (hdn : param.default_nargs = false) (hd : nsContains ns param.dest = false)
    (hnext : ∀ t, args[idx + 1]? = some t → candidateOk (PyVal.vStr t) = false) :
    storeAction param ns idx args =
        Except.ok (nsSet ns param.dest (StoredVal.list []), idx) ∧
      parseParams parserXY ["-x", "-y"] =
        POut.ok ({ parserXY with user_name_parameters := ["x", "y"] },
          [("x", StoredVal.list []), ("y", StoredVal.scalar (PyVal.vBool true))]) := by
  constructor
  · have hraw : List.takeWhile (fun a => candidateOk (PyVal.vStr a))
        (List.drop (idx + 1) args) = [] := by
      cases hdrop : List.drop (idx + 1) args with
      | nil => rfl
      | cons t rest =>
        have h0 := List.getElem?_drop args (idx + 1) 0
        rw [hdrop] at h0
        have ht : args[idx + 1]? = some t := by simpa using h0.symm
        simp [List.takeWhile_cons, hnext t ht]
    simp only [storeAction, ha, hn, hd, Bool.false_eq_true, if_false, hraw]
    simp [parseList, parseListLoop, storeFinish, hdn, hn]
  · rfl

/-- C10 witness: the zero-or-more theorem applied to `-x` at index 0 of
the token pair, whose following token is flag-like. -/
theorem C10_zero_or_more_empty_witness :
    (paramX.action = PAction.store ∧ paramX.nargs = Nargs.star ∧
      paramX.default_nargs = false ∧ nsContains [] paramX.dest = false ∧
      (∀ t : String, (["-x", "-y"] : List String)[0 + 1]? = some t →
        candidateOk (PyVal.vStr t) = false)) ∧
      (storeAction paramX [] 0 ["-x", "-y"] =
          Except.ok (nsSet [] paramX.dest (StoredVal.list []), 0) ∧
        parseParams parserXY ["-x", "-y"] =
          POut.ok ({ parserXY with user_name_parameters := ["x", "y"] },
            [("x", StoredVal.list []), ("y", StoredVal.scalar (PyVal.vBool true))])) := by
  have hnext : ∀ t : String, (["-x", "-y"] : List String)[0 + 1]? = some t →
      candidateOk (PyVal.vStr t) = false := by
    intro t ht
    have ht2 : t = "-y" := by simpa using ht.symm
    subst ht2
    decide
  exact ⟨⟨rfl, rfl, rfl, rfl, hnext⟩,
    C10_zero_or_more_empty paramX [] 0 ["-x", "-y"] rfl rfl rfl rfl hnext⟩

/-- paramI is the `_Parameter` built by registering `-i`/`--integers` with
type integer and one-or-more arity. -/
def paramI : Parameter :=
  ⟨"i", some "integers", "integers", PType.tInt, PAction.store, Nargs.plus, false,
   PyVal.vNone, PyVal.vNone, false, none⟩

/-- parserI is the parser holding exactly `paramI`. -/
def parserI : ParserState := ⟨[paramI], [], [], []⟩

/-- C1: a token counts as a value exactly when it parses as an integer or
does not begin with a dash — the single test shared by the per-token
validation of `_parse_list` (line 66) and the lookahead of the
optional-one and one-or-more/zero-or-more branches of `_store_action`
(lines 753, 765), all of which take `candidateOk` in this model.  In
particular `-n` (integer, arity fixed 1 by default) parsing the tokens
`-n -5` yields the integer scalar -5, and a one-or-more integer parameter
collects the leading-dash token `-2` as a value. -/
theorem C1_candidate_value_test :
    (∀ s : String, candidateOk (PyVal.vStr s) =
        ((pyParseInt s).isSome || !(strStartsWithDash s))) ∧
      addParameter emptyParser "-n" none none (some PType.tInt) PAction.store none
          PyVal.vNone PyVal.vNone false none = Except.ok parserN ∧
      parseParams parserN ["-n", "-5"] =
        POut.ok ({ parserN with user_name_parameters := ["n"] },
          [("n", StoredVal.scalar (PyVal.vInt (-5)))]) ∧
      parseParams parserI ["-i", "1", "-2"] =
        POut.ok ({ parserI with user_name_parameters := ["i"] },
          [("integers", StoredVal.list [PyVal.vInt 1, PyVal.vInt (-2)])]) :=
  ⟨fun _ => rfl, rfl, rfl, rfl⟩

/-- C4 counterexample: registering `-o` (integer, optional-one,
default 10, const 1) and parsing just the flag stores the one-element list
of the const — not the scalar 1 the claim requires. -/
theorem C4_counterexample_optional_one_stores_list :
    addParameter emptyParser "-o" none none (some PType.tInt) PAction.store
        (some Nargs.opt) (PyVal.vInt 10) (PyVal.vInt 1) false none = Except.ok parserO ∧
      parseParams parserO ["-o"] =
        POut.ok ({ parserO with user_name_parameters := ["o"] },
          [("o", StoredVal.list [PyVal.vInt 1])]) ∧
      StoredVal.list [PyVal.vInt 1] ≠ StoredVal.scalar (PyVal.vInt 1) :=
  ⟨rfl, rfl, by decide⟩

/-- C4 amended: with `-o` registered as optional-one (integer, default 10,
const 1), parsing no tokens stores the scalar default 10; parsing the bare
flag stores the one-element list holding the const 1; parsing the flag
with token 7 stores the one-element list holding 7 (the `?` branch of
`_store_action` reaches the list-storing arm of lines 776-779 because an
explicit arity clears `default_nargs`). -/
theorem C4_optional_one_behavior :
    parseParams parserO [] =
        POut.ok (parserO, [("o", StoredVal.scalar (PyVal.vInt 10))]) ∧
      parseParams parserO ["-o"] =
        POut.ok ({ parserO with user_name_parameters := ["o"] },
          [("o", StoredVal.list [PyVal.vInt 1])]) ∧
      parseParams parserO ["-o", "7"] =
        POut.ok ({ parserO with user_name_parameters := ["o"] },
          [("o", StoredVal.list [PyVal.vInt 7])]) :=
  ⟨rfl, rfl, rfl⟩

/-- lastIsLetter holds when a character list is non-empty and ends in an
ASCII letter. -/
def lastIsLetter (l : List Char) : Bool :=
  match l.getLast? with
  | some c => isAsciiLetter c
  | none => false

/-- specLongNameOriginal formalises the spec wording of the long-name
grammar: at least 2 characters, first and last characters letters,
interior characters letters or underscores. -/
def specLongNameOriginal (name : List Char) : Bool :=
  decide (2 ≤ name.length) &&
    (match name with
     | [] => false
     | c :: rest =>
       isAsciiLetter c && lastIsLetter (c :: rest) && rest.dropLast.all isLetterOrUnderscore)

/-- specLongNameAmended formalises the amended long-name grammar actually
implemented by the regex: at least 3 characters, the first two and the
last characters letters, interior characters letters or underscores. -/
def specLongNameAmended (name : List Char) : Bool :=
  decide (3 ≤ name.length) &&
    (match name with
     | c1 :: c2 :: rest =>
       isAsciiLetter c1 && isAsciiLetter c2 && lastIsLetter (c1 :: c2 :: rest) &&
         rest.dropLast.all isLetterOrUnderscore
     | _ => false)

theorem longTailMatch_iff (l : List Char) :
    longTailMatch l = (l.dropLast.all isLetterOrUnderscore && lastIsLetter l) := by
  induction l with
  | nil => rfl
  | cons c rest ih =>
    cases rest with
    | nil => simp [longTailMatch, lastIsLetter, List.dropLast]
    | cons d rest2 =>
      simp only [longTailMatch, ih, lastIsLetter, List.dropLast_cons₂, List.all_cons,
        List.getLast?_cons_cons]
      cases hls : (d :: rest2).getLast? with
      | none => simp at hls
      | some z =>
        cases isLetterOrUnderscore c <;> cases isAsciiLetter z <;>
          cases (d :: rest2).dropLast.all isLetterOrUnderscore <;> rfl

theorem longNameRegexMatch_eq_amended (name : List Char) :
    longNameRegexMatch name = specLongNameAmended name := by
  cases name with
  | nil => rfl
  | cons c1 rest1 =>
    cases rest1 with
    | nil => rfl
    | cons c2 rest =>
      simp only [longNameRegexMatch, specLongNameAmended, longTailMatch_iff]
      cases rest with
      | nil => simp [lastIsLetter]
      | cons d rest2 =>
        have hlen : decide (3 ≤ (c1 :: c2 :: d :: rest2).length) = true := by
          simp [List.length_cons]
        have hlast : lastIsLetter (c1 :: c2 :: d :: rest2) = lastIsLetter (d :: rest2) := by
          simp [lastIsLetter, List.getLast?_cons_cons]
        rw [hlen, hlast]
        cases isAsciiLetter c1 <;> cases isAsciiLetter c2 <;>
          cases lastIsLetter (d :: rest2) <;>
          cases (d :: rest2).dropLast.all isLetterOrUnderscore <;> rfl

/-- exceptIsOk reports whether a fallible registration call succeeded. -/
def exceptIsOk {α : Type} (r : Except PError α) : Bool :=
  match r with
  | Except.ok _ => true
  | Except.error _ => false

/-- C5 amended: the long-flag grammar shared by registration (line 435)
and parse time (line 623) accepts exactly the tokens of two dashes followed
by a name of at least 3 characters whose first two and last characters are
letters and whose interior characters are letters or underscores — not the
claimed at-least-2-characters / first-and-last-letter grammar (2-letter
names such as ab, and names whose second character is an underscore, are
rejected).  Registration of a long flag succeeds exactly on matching
tokens, and a token matching neither the short-bundle shape nor this
grammar fails any parse with the invalid-format error. -/
theorem C5_long_flag_grammar :
    (∀ name : List Char, longNameRegexMatch name = specLongNameAmended name) ∧
      (∀ lc : String,
        exceptIsOk (addParameter emptyParser "-a" (some lc) none none PAction.store none
          PyVal.vNone PyVal.vNone false none) = matchLongFormat lc) ∧
      (∀ (s : String) (S : ParserState), shortBundleMatch s = false →
        matchLongFormat s = false →
        parseParams S [s] = POut.err ⟨none, s!"{s} not a valid parameter format"⟩) := by
  refine ⟨longNameRegexMatch_eq_amended, ?_, ?_⟩
  · intro lc
    have ha : isAsciiLetter 'a' = true := by decide
    by_cases hm : matchLongFormat lc <;>
      simp [addParameter, mkParameter, emptyParser, hm, exceptIsOk, shortCommandMatch,
        stripFirstDash, removeFirstDashAux, ha, bind, Except.bind, throw, throwThe,
        MonadExceptOf.throw, pure, Except.pure]
  · intro s S h1 h2
    simp [parseParams, scanResult, scanLoop, h1, h2]

/-- C5 witness: the grammar theorem applied to the non-flag token `@@`,
discharging the two rejection hypotheses concretely. -/
theorem C5_long_flag_grammar_witness :
    shortBundleMatch "@@" = false ∧ matchLongFormat "@@" = false ∧
      parseParams emptyParser ["@@"] =
        POut.err ⟨none, "@@ not a valid parameter format"⟩ :=
  ⟨by decide, by decide,
    C5_long_flag_grammar.2.2 "@@" emptyParser (by decide) (by decide)⟩

/-- C5 counterexample: the claimed grammar accepts the 2-letter name ab
(and the underscore-second name a_b), but the regex, registration and the
parse-time matcher all reject them. -/
theorem C5_counterexample_two_letter_long :
    specLongNameOriginal "ab".data = true ∧
      matchLongFormat "--ab" = false ∧
      addParameter emptyParser "-a" (some "--ab") none none PAction.store none
          PyVal.vNone PyVal.vNone false none =
        Except.error ⟨none, "--ab is not valid as long command"⟩ ∧
      parseParams parserLongAB ["--ab"] =
        POut.err ⟨none, "--ab not a valid parameter format"⟩ ∧
      specLongNameOriginal "a_b".data = true ∧
      matchLongFormat "--a_b" = false :=
  ⟨by decide, by decide, rfl, rfl, by decide, by decide⟩

/-- C6 amended: the declaration-time collision check between the two
constraint graphs is orientation-sensitive.  Declaring a pair (p, r) in one
graph and then the same ordered pair (p, r) in the other graph raises a
configuration error — in either order of the two graphs — but the reversed
pair (r, p) is not detected (see the counterexample), because
`dependency_params`/`incompatible_params` only look the first component up
as a key in the opposite graph (lines 508-512 and 568-572). -/
theorem C6_ordered_pair_collision (S : ParserState) (p r : String) (l : List String)
    (hrv : (validParameter S true (stripFirstDash r)).isSome = true)
    (hpv : (validParameter S true (stripFirstDash p)).isSome = true)
    (hne : p ≠ r) :
    (graphFind S.dependency_params_restrictions p = some l → r ∈ l →
        exceptIsOk (incompatibleParams S [p] [r]) = false) ∧
      (graphFind S.incompatible_params_restrictions p = some l → r ∈ l →
        exceptIsOk (dependencyParams S [p] [r]) = false) := by
  have hpc : ([r].contains p) = false := by
    simpa using hne
  obtain ⟨q, hq⟩ := Option.isSome_iff_exists.mp hpv
  obtain ⟨q2, hq2⟩ := Option.isSome_iff_exists.mp hrv
  constructor
  · intro hg hr
    simp [incompatibleParams, incLoop, findInvalidRestriction, hq, hq2, hg, hr, hpc, hne,
      exceptIsOk]
  · intro hg hr
    simp [dependencyParams, depLoop, findInvalidRestriction, hq, hq2, hg, hr, hpc, hne,
      exceptIsOk]

/-- C6 witness: the collision theorem applied to the parser in which the
dependency pair -a needs -b is already declared. -/
theorem C6_ordered_pair_collision_witness :
    ((validParameter parserABdep true (stripFirstDash "-b")).isSome = true ∧
      (validParameter parserABdep true (stripFirstDash "-a")).isSome = true ∧
      ("-a" : String) ≠ "-b") ∧
      ((graphFind parserABdep.dependency_params_restrictions "-a" = some ["-b"] →
          "-b" ∈ ["-b"] →
          exceptIsOk (incompatibleParams parserABdep ["-a"] ["-b"]) = false) ∧
        (graphFind parserABdep.incompatible_params_restrictions "-a" = some ["-b"] →
          "-b" ∈ ["-b"] →
          exceptIsOk (dependencyParams parserABdep ["-a"] ["-b"]) = false)) :=
  ⟨⟨rfl, rfl, by decide⟩,
    C6_ordered_pair_collision parserABdep "-a" "-b" ["-b"] rfl rfl (by decide)⟩

/-- C6 counterexample: after declaring the dependency pair (-a, -b),
declaring the reversed pair (-b, -a) in the incompatibility graph
succeeds — no configuration error is raised, contradicting the claim that
the same unordered pair is rejected in either orientation. -/
theorem C6_counterexample_reversed_pair :
    dependencyParams parserAB ["-a"] ["-b"] = Except.ok parserABdep ∧
      incompatibleParams parserABdep ["-b"] ["-a"] =
        Except.ok ⟨[mkBoolParam "a", mkBoolParam "b"], [],
          [("-a", ["-b"])], [("-b", ["-a"])]⟩ :=
  ⟨rfl, rfl⟩

/-- C7: after any successful parse, every registered parameter whose
default is not the suppressed sentinel and whose dest was not written
during the scan ends up with exactly one entry in the result set, holding
its default (`_complete_namespace`, lines 719-724, invoked at line 667
after the three constraint checks pass). -/
theorem C7_defaults_filled (S : ParserState) (args : List String) (S2 : ParserState)
    (ns : Namespace) (names : List String) (ns0 : Namespace) (p : Parameter)
    (hscan : scanResult S args = POut.ok (names, ns0))
    (hok : parseParams S args = POut.ok (S2, ns))
    (hp : p ∈ S.parameters) (hd : p.default ≠ PyVal.vSuppress)
    (hnodup : (List.map (fun q => q.dest) S.parameters).Nodup)
    (habs : nsContains ns0 p.dest = false) :
    nsGet ns p.dest = some (StoredVal.scalar p.default) ∧ nsCountKey ns p.dest = 1 := by
  simp only [parseParams, hscan] at hok
  have hdec := finishParse_ok_decompose S names ns0 S2 ns hok
  rw [hdec.2]
  exact completeNamespace_fills S.parameters ns0 p hnodup hp hd habs

/-- C7 witness: the default-completion theorem applied to the two-flag
parser parsing an empty token list. -/
theorem C7_defaults_filled_witness :
    (scanResult parserAB [] = POut.ok ([], []) ∧
      parseParams parserAB [] =
        POut.ok (parserAB, [("a", StoredVal.scalar (PyVal.vStr "False")),
          ("b", StoredVal.scalar (PyVal.vStr "False"))]) ∧
      mkBoolParam "a" ∈ parserAB.parameters ∧
      (mkBoolParam "a").default ≠ PyVal.vSuppress ∧
      (List.map (fun q => q.dest) parserAB.parameters).Nodup ∧
      nsContains [] (mkBoolParam "a").dest = false) ∧
      (nsGet [("a", StoredVal.scalar (PyVal.vStr "False")),
          ("b", StoredVal.scalar (PyVal.vStr "False"))] (mkBoolParam "a").dest =
        some (StoredVal.scalar (mkBoolParam "a").default) ∧
        nsCountKey [("a", StoredVal.scalar (PyVal.vStr "False")),
          ("b", StoredVal.scalar (PyVal.vStr "False"))] (mkBoolParam "a").dest = 1) :=
  ⟨⟨rfl, rfl, by decide, by decide, by decide, rfl⟩,
    C7_defaults_filled parserAB [] parserAB
      [("a", StoredVal.scalar (PyVal.vStr "False")),
        ("b", StoredVal.scalar (PyVal.vStr "False"))]
      [] [] (mkBoolParam "a") rfl rfl (by decide) (by decide) (by decide) rfl⟩

/-- C8 amended: a parse call builds its dest-to-value result set afresh
(the namespace starts empty in `parse_params` when none is supplied), and
leaves the registry and both constraint graphs untouched — but the set of
resolved parameter identities (`user_name_parameters`) is parser state
created once in `__init__` (line 383) and only appended to during each
parse (lines 617, 628), so every successful parse hands back a state whose
resolved-name list extends the previous one, and constraint checks can
depend on earlier parse calls on the same parser (see the counterexample). -/
theorem C8_parser_state_accumulation (S : ParserState) (args : List String)
    (S2 : ParserState) (ns : Namespace)
    (h : parseParams S args = POut.ok (S2, ns)) :
    S2.parameters = S.parameters ∧
      S2.dependency_params_restrictions = S.dependency_params_restrictions ∧
      S2.incompatible_params_restrictions = S.incompatible_params_restrictions ∧
      ∃ l, S2.user_name_parameters = S.user_name_parameters ++ l := by
  rcases parseParams_ok_decompose S args S2 ns h with ⟨names, ns0, hscan, hS2, hns, l, hl⟩
  subst hS2
  exact ⟨rfl, rfl, rfl, l, hl⟩

/-- C8 witness: the accumulation theorem applied to the incompatibility
parser parsing the single flag -a. -/
theorem C8_parser_state_accumulation_witness :
    parseParams parserABinc ["-a"] =
        POut.ok ({ parserABinc with user_name_parameters := ["a"] },
          [("a", StoredVal.scalar (PyVal.vBool true)),
            ("b", StoredVal.scalar (PyVal.vStr "False"))]) ∧
      (({ parserABinc with user_name_parameters := ["a"] } : ParserState).parameters =
          parserABinc.parameters ∧
        ({ parserABinc with user_name_parameters := ["a"] } : ParserState).dependency_params_restrictions =
          parserABinc.dependency_params_restrictions ∧
        ({ parserABinc with user_name_parameters := ["a"] } : ParserState).incompatible_params_restrictions =
          parserABinc.incompatible_params_restrictions ∧
        ∃ l, ({ parserABinc with user_name_parameters := ["a"] } : ParserState).user_name_parameters =
          parserABinc.user_name_parameters ++ l) :=
  ⟨rfl,
    C8_parser_state_accumulation parserABinc ["-a"]
      { parserABinc with user_name_parameters := ["a"] }
      [("a", StoredVal.scalar (PyVal.vBool true)),
        ("b", StoredVal.scalar (PyVal.vStr "False"))] rfl⟩

/-- C8 counterexample: with `-a` and `-b` declared incompatible, a fresh
parser parses the single flag -b successfully; but after an earlier parse
of -a on the same parser (which leaves "a" in the resolved-name state),
the same call on the resulting state fails the incompatibility check — the
outcome of a parse call is not a function of its own token list alone. -/
theorem C8_counterexample_shared_resolved_names :
    parseParams parserABinc ["-b"] =
        POut.ok ({ parserABinc with user_name_parameters := ["b"] },
          [("b", StoredVal.scalar (PyVal.vBool true)),
            ("a", StoredVal.scalar (PyVal.vStr "False"))]) ∧
      parseParams parserABinc ["-a"] =
        POut.ok ({ parserABinc with user_name_parameters := ["a"] },
          [("a", StoredVal.scalar (PyVal.vBool true)),
            ("b", StoredVal.scalar (PyVal.vStr "False"))]) ∧
      parseParams ({ parserABinc with user_name_parameters := ["a"] }) ["-b"] =
        POut.err ⟨some "a", "incompatible parameters [-b]"⟩ :=
  ⟨rfl, rfl, rfl⟩

/-- C9: declaring the dependency pair (-a, -b) twice is idempotent — the
second call returns the state produced by the first unchanged — and -b
occurs exactly once in the required set stored under -a (the second call
appends a duplicate and the final per-key deduplication of lines 519-521
collapses it). -/
theorem C9_dependency_redeclare_idempotent :
    dependencyParams parserAB ["-a"] ["-b"] = Except.ok parserABdep ∧
      dependencyParams parserABdep ["-a"] ["-b"] = Except.ok parserABdep ∧
      graphFind parserABdep.dependency_params_restrictions "-a" = some ["-b"] ∧
      (["-b"] : List String).count "-b" = 1 :=
  ⟨rfl, rfl, rfl, by decide⟩
